import Mathlib

/-!
Shallow embedding of the ssh_exporter core (`util/main.go` of
Nordstrom/ssh_exporter) and proofs about its specification.

The embedding follows the Go source function by function.  External
collaborators are modelled as explicit parameters:

* the SSH transport (`golang.org/x/crypto/ssh`: `sshConnectToHost` plus
  `session.CombinedOutput`) is a `Transport` oracle returning, per
  `(host, port, user, keyfile, script)` tuple, one of: connection failure,
  command failure (non-zero exit or transport error), or success with the
  command's combined output;
* the regular-expression engine (`regexp.Compile` / `MatchString`) is a
  `RegexEngine` returning `none` for patterns that fail to compile (Go
  returns a nil `*regexp.Regexp` in that case) and otherwise a predicate on
  strings;
* `time.ParseDuration` is a `String → Option Int` parameter (durations are
  int64 nanosecond counts in Go).

Machine integers (`int`, `int8`, `time.Duration`) are modelled as `Int`;
the program only ever stores small constants or parsed exit codes in them,
so no overflow is observable.  A Go panic (the nil-matcher dereference in
`executeScript`) is modelled with `Except RuntimeFault`: a `.error` value
means the process crashed and nothing was returned.
-/

namespace SshExporter

/-- Go struct `CredentialConfig` (util/main.go lines 77-86): one execution
target (`host`, `port`, `user`, `keyfile`) together with the runtime result
slot the per-host executor fills in (`ScriptResult`, `ScriptReturnCode`,
`ScriptError`, `ResultPatternMatch`). -/
structure CredentialConfig where
  host : String
  port : String
  user : String
  keyFile : String
  scriptResult : String := ""
  scriptReturnCode : Int := 0
  scriptError : String := ""
  resultPatternMatch : Int := 0
deriving DecidableEq

/-- Go struct `ScriptConfig` (util/main.go lines 58-66). -/
structure ScriptConfig where
  name : String
  script : String
  timeout : String
  pattern : String
  credentials : List CredentialConfig
  parsedTimeout : Int := 0
  ignored : Bool := false
deriving DecidableEq

/-- Go struct `Config` (util/main.go lines 42-45). -/
structure Config where
  version : String
  scripts : List ScriptConfig
deriving DecidableEq

/-- Outcome of one remote execution attempt, as exposed by the SSH
transport to `executeScriptOnHost`: `connFail e` models
`sshConnectToHost` returning an error `e` (auth or network failure),
`runFail e` models `session.CombinedOutput` returning an error `e`
(non-zero remote exit or transport failure), `success out` models
`session.CombinedOutput` returning the combined output `out` with exit
status zero. -/
inductive SSHOutcome where
  | connFail (e : String)
  | runFail (e : String)
  | success (out : String)
deriving DecidableEq

/-- The SSH transport, an external collaborator: what happens when the
given script is run on the given `(host, port, user, keyfile)` target. -/
abbrev Transport := String → String → String → String → String → SSHOutcome

/-- The regular-expression engine, an external collaborator: `regexp.Compile`
returns `none` when the pattern does not compile (Go: a nil `*Regexp` and an
error), otherwise the `MatchString` predicate of the compiled regex. -/
abbrev RegexEngine := String → Option (String → Bool)

/-- Marker for a Go runtime panic.  `nilMatcher` is the nil-pointer
dereference that happens when `executeScript` calls `match.MatchString`
after `regexp.Compile` failed (util/main.go lines 276 and 290). -/
inductive RuntimeFault where
  | nilMatcher
deriving DecidableEq

/-- Go `literalFormat` (util/main.go lines 380-383):
`strings.Replace(input, "\n", "\\n", -1)`.  Since the pattern is the single
character `'\n'`, replacing every non-overlapping occurrence is exactly a
character-by-character rewrite of `'\n'` to the two-character sequence
`'\\' 'n'`. -/
def literalFormatList : List Char → List Char
  | [] => []
  | c :: cs =>
    if c = '\n' then '\\' :: 'n' :: literalFormatList cs
    else c :: literalFormatList cs

/-- String version of `literalFormat` (util/main.go lines 380-383). -/
def literalFormat (input : String) : String :=
  String.mk (literalFormatList input.data)

/-- Longest leading run of decimal digits, accumulated as a number; models
the digit-consuming part of `fmt.Sscanf`'s `%d` verb. -/
def digitsVal : List Char → Nat → Nat
  | [], acc => acc
  | c :: cs, acc =>
    if c.isDigit then digitsVal cs (acc * 10 + (c.toNat - 48)) else acc

/-- Integer scan at the head of a character list, modelling `fmt.Sscanf`'s
`%d` verb: an optional minus sign followed by at least one digit.  If no
integer can be read the scan fails and the Go variable keeps its zero
value, hence the result `0`. -/
def scanInt : List Char → Int
  | [] => 0
  | '-' :: rest =>
    match rest with
    | [] => 0
    | c :: _ => if c.isDigit then - Int.ofNat (digitsVal rest 0) else 0
  | c :: rest => if c.isDigit then Int.ofNat (digitsVal (c :: rest) 0) else 0

/-- Drop the literal prefix `pre` from `l`, or fail; models the literal
part of a `fmt.Sscanf` format string. -/
def dropLiteral : List Char → List Char → Option (List Char)
  | [], l => some l
  | _ :: _, [] => none
  | p :: ps, c :: cs => if p = c then dropLiteral ps cs else none

/-- Model of `fmt.Sscanf(errText, "Process exited with status %d",
&errorStatusCode)` in `executeScriptOnHost` (util/main.go line 316):
the scanned integer when the error text carries one, otherwise `0`
(the zero value `errorStatusCode` keeps when the scan fails). -/
def parseExitStatus (s : String) : Int :=
  match dropLiteral "Process exited with status ".data s.data with
  | none => 0
  | some rest => scanInt rest

/-- Go `executeScriptOnHost` (util/main.go lines 306-328), with the SSH
transport abstracted as the oracle `T`.  Returns
`(result, returnCode, error)`:

* connection failure: `("", -1, some e)` (lines 308-311);
* command failure: the error text is scanned for
  `Process exited with status %d`; a non-zero scanned code is returned as
  the status, otherwise `-1`; the output is empty either way
  (lines 313-322);
* success: the newline-escaped combined output with status `0`
  (line 326). -/
def executeScriptOnHost (T : Transport)
    (host port user keyfile script : String) : String × Int × Option String :=
  match T host port user keyfile script with
  | .connFail e => ("", -1, some e)
  | .runFail e =>
    let errorStatusCode := parseExitStatus e
    if errorStatusCode ≠ 0 then ("", errorStatusCode, some e)
    else ("", -1, some e)
  | .success out => (literalFormat out, 0, none)

/-- Go `match.MatchString(result)` where `match` may be the nil `*Regexp`
returned by a failed `regexp.Compile` (util/main.go lines 276 and 290):
calling `MatchString` on a nil receiver panics, crashing the process. -/
def matchStringOrCrash (m : Option (String → Bool)) (s : String) :
    Except RuntimeFault Bool :=
  match m with
  | none => .error .nilMatcher
  | some f => .ok (f s)

/-- Body of the per-credential goroutine spawned by `executeScript`
(util/main.go lines 280-299): run the script on the host, write
`ScriptReturnCode` and `ScriptResult`, write `ScriptError` when an error
occurred, then apply the compiled matcher to the result string and record
`ResultPatternMatch` as `1` or `0`. -/
def runCredential (T : Transport) (script : String)
    (m : Option (String → Bool)) (c : CredentialConfig) :
    Except RuntimeFault CredentialConfig :=
  let r := executeScriptOnHost T c.host c.port c.user c.keyFile script
  let c1 := { c with scriptReturnCode := r.2.1, scriptResult := r.1 }
  let c2 :=
    match r.2.2 with
    | some e => { c1 with scriptError := e }
    | none => c1
  match matchStringOrCrash m r.1 with
  | .error fault => .error fault
  | .ok b => .ok { c2 with resultPatternMatch := if b then 1 else 0 }

/-- The credential loop of `executeScript` (util/main.go lines 278-300),
one slot per credential, each written by the goroutine modelled by
`runCredential`. -/
def credsLoop (T : Transport) (script : String)
    (m : Option (String → Bool)) :
    List CredentialConfig → Except RuntimeFault (List CredentialConfig)
  | [] => .ok []
  | c :: rest =>
    match runCredential T script m c with
    | .error fault => .error fault
    | .ok c2 =>
      match credsLoop T script m rest with
      | .error fault => .error fault
      | .ok rest2 => .ok (c2 :: rest2)

/-- Go `executeScript` (util/main.go lines 274-301): compile the script's
match pattern (discarding the compile error, so an invalid pattern yields
the nil matcher `none`), then run the script on every credential. -/
def executeScript (T : Transport) (R : RegexEngine)
    (script pattern : String) (creds : List CredentialConfig) :
    Except RuntimeFault (List CredentialConfig) :=
  credsLoop T script (R pattern) creds

/-- One iteration of the dispatch loop in `BatchExecute`
(util/main.go lines 184-190): a script whose name does not match the
compiled filter `p` is marked ignored and skipped; otherwise
`executeScript` runs it and its credential slots are replaced by the
results. -/
def runScript (T : Transport) (R : RegexEngine) (p : String → Bool)
    (v : ScriptConfig) : Except RuntimeFault ScriptConfig :=
  if p v.name ≠ true then .ok { v with ignored := true }
  else
    match executeScript T R v.script v.pattern v.credentials with
    | .error fault => .error fault
    | .ok creds2 => .ok { v with credentials := creds2 }

/-- The script loop of `BatchExecute` (util/main.go lines 184-190). -/
def scriptsLoop (T : Transport) (R : RegexEngine) (p : String → Bool) :
    List ScriptConfig → Except RuntimeFault (List ScriptConfig)
  | [] => .ok []
  | v :: rest =>
    match runScript T R p v with
    | .error fault => .error fault
    | .ok v2 =>
      match scriptsLoop T R p rest with
      | .error fault => .error fault
      | .ok rest2 => .ok (v2 :: rest2)

/-- Go `BatchExecute` (util/main.go lines 179-206): partition the scripts
by the name filter, execute the selected ones, and return the mutated
configuration together with the error result, which the source returns as
the literal `nil` (line 205).  A `.error` value models the process
crashing on a goroutine panic, in which case nothing is returned. -/
def BatchExecute (T : Transport) (R : RegexEngine)
    (c : Config) (p : String → Bool) :
    Except RuntimeFault (Config × Option String) :=
  match scriptsLoop T R p c.scripts with
  | .error fault => .error fault
  | .ok scripts2 => .ok ({ c with scripts := scripts2 }, none)

/-- Instrumented credential loop: identical to `credsLoop` but it also
records, for each credential processed, the pair
`(script index, credential host)` at the moment the transport is consulted.
Used to state that unselected scripts contact zero hosts. -/
def credsLoopTraced (T : Transport) (script : String)
    (m : Option (String → Bool)) (i : Nat) :
    List CredentialConfig →
    Except RuntimeFault (List CredentialConfig × List (Nat × String))
  | [] => .ok ([], [])
  | c :: rest =>
    match runCredential T script m c with
    | .error fault => .error fault
    | .ok c2 =>
      match credsLoopTraced T script m i rest with
      | .error fault => .error fault
      | .ok (rest2, tr) => .ok (c2 :: rest2, (i, c.host) :: tr)

/-- Instrumented `executeScript`: see `credsLoopTraced`. -/
def executeScriptTraced (T : Transport) (R : RegexEngine) (i : Nat)
    (script pattern : String) (creds : List CredentialConfig) :
    Except RuntimeFault (List CredentialConfig × List (Nat × String)) :=
  credsLoopTraced T script (R pattern) i creds

/-- Instrumented `runScript`: same dispatch decision as `runScript`
(util/main.go lines 184-190), additionally returning the host contacts of
the script (empty for an ignored script, which attempts no connection). -/
def runScriptTraced (T : Transport) (R : RegexEngine) (p : String → Bool)
    (i : Nat) (v : ScriptConfig) :
    Except RuntimeFault (ScriptConfig × List (Nat × String)) :=
  if p v.name ≠ true then .ok ({ v with ignored := true }, [])
  else
    match executeScriptTraced T R i v.script v.pattern v.credentials with
    | .error fault => .error fault
    | .ok (creds2, tr) => .ok ({ v with credentials := creds2 }, tr)

/-- Instrumented script loop of `BatchExecute`, carrying the Go loop index
`i` of `for i, v := range c.Scripts` (util/main.go line 184) and
accumulating the host contacts of the selected scripts. -/
def scriptsLoopTraced (T : Transport) (R : RegexEngine) (p : String → Bool) :
    Nat → List ScriptConfig →
    Except RuntimeFault (List ScriptConfig × List (Nat × String))
  | _, [] => .ok ([], [])
  | i, v :: rest =>
    match runScriptTraced T R p i v with
    | .error fault => .error fault
    | .ok (v2, tr) =>
      match scriptsLoopTraced T R p (i + 1) rest with
      | .error fault => .error fault
      | .ok (rest2, trs) => .ok (v2 :: rest2, tr ++ trs)

/-- Instrumented `BatchExecute`: same computation, plus the list of
`(script index, host)` contacts made. -/
def BatchExecuteTraced (T : Transport) (R : RegexEngine)
    (c : Config) (p : String → Bool) :
    Except RuntimeFault (Config × List (Nat × String)) :=
  match scriptsLoopTraced T R p 0 c.scripts with
  | .error fault => .error fault
  | .ok (scripts2, tr) => .ok ({ c with scripts := scripts2 }, tr)

/-- Branch of `adjustConfig` defaulting an absent port to `"22"`
(util/main.go lines 250-254). -/
def defaultPort (j : CredentialConfig) : CredentialConfig :=
  if j.port = "" then { j with port := "22" } else j

/-- Per-script body of `adjustConfig` (util/main.go lines 249-263), with
`time.ParseDuration` abstracted as `pd` (durations as nanosecond counts):
default empty ports to `"22"`, then parse the timeout; if parsing fails,
fall back to `time.ParseDuration("10s")` (whose failure would leave the Go
zero value, hence `getD 0`). -/
def adjustScript (pd : String → Option Int) (v : ScriptConfig) : ScriptConfig :=
  let v2 := { v with credentials := v.credentials.map defaultPort }
  match pd v2.timeout with
  | some tmp => { v2 with parsedTimeout := tmp }
  | none => { v2 with parsedTimeout := (pd "10s").getD 0 }

/-- Go `adjustConfig` (util/main.go lines 247-266); always returns the
adjusted configuration and a `nil` error (line 265). -/
def adjustConfig (pd : String → Option Int) (c : Config) :
    Config × Option String :=
  ({ c with scripts := c.scripts.map (adjustScript pd) }, none)

/-- Metric line produced by `exitStatusFormatStr` (util/main.go line 215). -/
def exitStatusLine (name host user script : String) (code : Int) : String :=
  "ssh_exporter_" ++ name ++ "_exit_status\x7bname=\"" ++ name ++
    "\",host=\"" ++ host ++ "\",user=\"" ++ user ++ "\",script=\"" ++
    script ++ "\",exit_status=\"" ++ toString code ++ "\"\x7d " ++
    toString code

/-- Metric line produced by `patternMatchFormatStr` (util/main.go
line 216). -/
def patternMatchLine (name host user script regexStr : String)
    (matched : Int) : String :=
  "ssh_exporter_" ++ name ++ "_pattern_match\x7bname=\"" ++ name ++
    "\",host=\"" ++ host ++ "\",user=\"" ++ user ++ "\",script=\"" ++
    script ++ "\",regex=\"" ++ regexStr ++ "\"\x7d " ++ toString matched

/-- Documentation header produced by `exitStatusHelpStr` (util/main.go
line 218); note the embedded newline before the TYPE line. -/
def exitHelp (name : String) : String :=
  "# HELP ssh_exporter_" ++ name ++
    "_exit_status Integer exit status of commands and metadata about the command's execution.\n# TYPE ssh_exporter gauge"

/-- Documentation header produced by `patternMatchHelpStr` (util/main.go
line 219). -/
def matchHelp (name : String) : String :=
  "# HELP ssh_exporter_" ++ name ++
    "_pattern_match Boolean match of regex on output of script of commands and metadata about the command's execution.\n# TYPE ssh_exporter gauge"

/-- The per-credential metric loops of `PrometheusFormatResponse`
(util/main.go lines 227-230 and 232-235): each iteration appends a newline
and one metric line to the accumulated response. -/
def metricFold (f : CredentialConfig → String) (init : String)
    (creds : List CredentialConfig) : String :=
  creds.foldl (fun r j => r ++ "\n" ++ f j) init

/-- One iteration of the script loop of `PrometheusFormatResponse`
(util/main.go lines 221-238): skip ignored scripts; otherwise append the
exit-status header, the exit-status lines, the pattern-match header, the
pattern-match lines, and a final newline. -/
def formatScriptStep (response : String) (v : ScriptConfig) : String :=
  if v.ignored ≠ true then
    metricFold
      (fun j => patternMatchLine v.name j.host j.user v.script v.pattern
        j.resultPatternMatch)
      (metricFold
        (fun j => exitStatusLine v.name j.host j.user v.script
          j.scriptReturnCode)
        (response ++ exitHelp v.name) v.credentials
        ++ "\n" ++ matchHelp v.name)
      v.credentials ++ "\n"
  else response

/-- Go `PrometheusFormatResponse` (util/main.go lines 212-241); the error
result is the literal `nil` of line 240. -/
def PrometheusFormatResponse (c : Config) : String × Option String :=
  (c.scripts.foldl formatScriptStep "", none)

/-- Concatenation of a list of strings (used to state the exposition
layout). -/
def strConcat : List String → String
  | [] => ""
  | s :: rest => s ++ strConcat rest

/-- The exposition block the specification's wire format dictates for one
selected script (spec section 6): the exit-status HELP and TYPE header
lines, one exit-status metric line per host in configuration order, the
pattern-match HELP and TYPE header lines, one pattern-match metric line
per host in configuration order, every line separated from its
predecessor by a single newline and the block closed by a single trailing
newline. -/
def specBlock (v : ScriptConfig) : String :=
  exitHelp v.name ++
    strConcat (v.credentials.map (fun j =>
      "\n" ++ exitStatusLine v.name j.host j.user v.script
        j.scriptReturnCode)) ++
    "\n" ++ matchHelp v.name ++
    strConcat (v.credentials.map (fun j =>
      "\n" ++ patternMatchLine v.name j.host j.user v.script v.pattern
        j.resultPatternMatch)) ++
    "\n"

/-- Program location of the main goroutine inside `BatchExecute`
(util/main.go lines 179-206), for a configuration with one selected script
and one credential: before the spawn of line 188, blocked at `done.Wait()`
(line 192), inside the per-credential `select` (lines 197-200), or past
the `return` of line 205. -/
inductive MainLoc where
  | beforeSpawn
  | atWait
  | atSelect
  | returned
deriving DecidableEq

/-- Program location of the `executeScript` goroutine spawned at
util/main.go line 188: not yet spawned, spawned but not yet at
`done.Add(1)` (line 279), past `done.Add(1)` and about to spawn the
per-credential goroutine (line 280), or finished spawning. -/
inductive ExecLoc where
  | notSpawned
  | beforeAdd
  | afterAdd
  | spawned
deriving DecidableEq

/-- Program location of the per-credential goroutine (util/main.go lines
280-299): not yet spawned, executing the remote command, past the writes
to the result slot (lines 283-294), past `t <- true` (line 296), or past
`done.Done()` (line 298). -/
inductive HostLoc where
  | notSpawned
  | running
  | wroteSlot
  | sentSignal
  | finished
deriving DecidableEq

/-- Synchronization state of `BatchExecute` for one selected script with
one credential: the three goroutine locations, the `sync.WaitGroup`
counter `done`, and whether the credential's result slot has been
written. -/
structure BatchSyncState where
  mainLoc : MainLoc
  execLoc : ExecLoc
  hostLoc : HostLoc
  wgCounter : Nat
  slotWritten : Bool
deriving DecidableEq

/-- Interleaving semantics of the synchronization skeleton of
`BatchExecute` and `executeScript` (util/main.go lines 179-206 and
274-301) for one selected script with one credential.  Each constructor is
one atomic action of one goroutine:

* `spawnExec`: main executes `go executeScript(...)` (line 188) and falls
  through to `done.Wait()` (line 192);
* `wgAdd`: the `executeScript` goroutine executes `done.Add(1)`
  (line 279) — note this happens concurrently with main's `done.Wait()`;
* `spawnHost`: the `executeScript` goroutine executes `go func() {...}()`
  (line 280);
* `waitPass`: `done.Wait()` returns, which the `sync.WaitGroup` allows
  exactly when the counter is zero;
* `hostWrite`: the per-credential goroutine finishes the remote command
  and writes the result slot (lines 283-294);
* `signalRecv`: the rendezvous of `t <- true` (line 296) with main's
  `case <-t` (line 199), after which main returns (line 205);
* `timeoutFire`: the `case <-time.After(v.ParsedTimeout)` branch of the
  `select` fires because `parsedTimeout` elapsed before any signal
  arrived on `t` (lines 197-200), after which main returns (line 205);
* `wgDone`: the per-credential goroutine executes `done.Done()`
  (line 298). -/
inductive BatchSyncStep : BatchSyncState → BatchSyncState → Prop where
  | spawnExec (s : BatchSyncState) :
      s.mainLoc = .beforeSpawn → s.execLoc = .notSpawned →
      BatchSyncStep s { s with mainLoc := .atWait, execLoc := .beforeAdd }
  | wgAdd (s : BatchSyncState) :
      s.execLoc = .beforeAdd →
      BatchSyncStep s
        { s with execLoc := .afterAdd, wgCounter := s.wgCounter + 1 }
  | spawnHost (s : BatchSyncState) :
      s.execLoc = .afterAdd → s.hostLoc = .notSpawned →
      BatchSyncStep s { s with execLoc := .spawned, hostLoc := .running }
  | waitPass (s : BatchSyncState) :
      s.mainLoc = .atWait → s.wgCounter = 0 →
      BatchSyncStep s { s with mainLoc := .atSelect }
  | hostWrite (s : BatchSyncState) :
      s.hostLoc = .running →
      BatchSyncStep s { s with hostLoc := .wroteSlot, slotWritten := true }
  | signalRecv (s : BatchSyncState) :
      s.mainLoc = .atSelect → s.hostLoc = .wroteSlot →
      BatchSyncStep s { s with mainLoc := .returned, hostLoc := .sentSignal }
  | timeoutFire (s : BatchSyncState) :
      s.mainLoc = .atSelect →
      BatchSyncStep s { s with mainLoc := .returned }
  | wgDone (s : BatchSyncState) :
      s.hostLoc = .sentSignal →
      BatchSyncStep s
        { s with hostLoc := .finished, wgCounter := s.wgCounter - 1 }

/-- Initial synchronization state of `BatchExecute`: a fresh
`sync.WaitGroup` (counter zero, util/main.go line 181), no goroutine
spawned, no result written. -/
def batchSyncInit : BatchSyncState :=
  { mainLoc := .beforeSpawn, execLoc := .notSpawned,
    hostLoc := .notSpawned, wgCounter := 0, slotWritten := false }

/-- Concrete regex-engine instance used to evaluate theorems on concrete
inputs: `"("` does not compile (as in Go), `".*"` matches every string,
`"foo"` matches strings containing `foo` as a substring, and other
patterns are not modelled. -/
def matchAnything : String → Bool := fun _ => true

/-- Substring test on character lists (the semantics of the regex `foo`
on a subject string). -/
def containsSub (needle : List Char) : List Char → Bool
  | [] => needle.isPrefixOf []
  | c :: rest => needle.isPrefixOf (c :: rest) || containsSub needle rest

/-- Model of the compiled regex `foo`: matches any string containing the
substring `foo`. -/
def matchFoo : String → Bool := fun s => containsSub "foo".data s.data

/-- Concrete regex engine for evaluating on concrete inputs; see
`matchAnything` and `matchFoo`. -/
def regexModel : RegexEngine := fun p =>
  if p = "(" then none
  else if p = ".*" then some matchAnything
  else if p = "foo" then some matchFoo
  else none

/-- Transport on which every command succeeds with output `out`. -/
def transportSuccess (out : String) : Transport := fun _ _ _ _ _ => .success out

/-- Error text of a refused TCP connection, as produced by `ssh.Dial`. -/
def connRefusedMsg : String := "dial tcp 10.0.0.1:22: connect: connection refused"

/-- Transport on which every connection attempt fails. -/
def transportConnRefused : Transport := fun _ _ _ _ _ => .connFail connRefusedMsg

/-- Transport on which every command fails with error text `e`. -/
def transportRunFail (e : String) : Transport := fun _ _ _ _ _ => .runFail e

/-- Concrete credential (all user-assigned fields populated). -/
def cred1 : CredentialConfig :=
  { host := "host1.example.com", port := "22", user := "alice",
    keyFile := "/keys/id_rsa" }

/-- Second concrete credential. -/
def cred2 : CredentialConfig :=
  { host := "host2.example.com", port := "2222", user := "bob",
    keyFile := "/keys/id_bob" }

/-- Credential with an absent port. -/
def credNoPort : CredentialConfig :=
  { host := "h3", port := "", user := "carol", keyFile := "/keys/id_carol" }

/-- Concrete script whose pattern is `foo`. -/
def scriptEcho : ScriptConfig :=
  { name := "echo_output", script := "echo foo", timeout := "5s",
    pattern := "foo", credentials := [cred1] }

/-- Concrete script whose pattern is `.*`. -/
def scriptLs : ScriptConfig :=
  { name := "ls_tmp", script := "ls /tmp", timeout := "5s",
    pattern := ".*", credentials := [cred2] }

/-- Two-script configuration. -/
def cfgTwo : Config := { version := "v0", scripts := [scriptEcho, scriptLs] }

/-- Name filter matching only `ls_tmp` (modelling the compiled query
regex). -/
def filterLs : String → Bool := fun s => s = "ls_tmp"

/-- Name filter matching every script name (modelling `.*`). -/
def filterAll : String → Bool := fun _ => true

/-- Script whose match pattern `"("` fails to compile. -/
def scriptBadPattern : ScriptConfig :=
  { name := "bad", script := "true", timeout := "5s", pattern := "(",
    credentials := [cred1] }

/-- Configuration containing only `scriptBadPattern`. -/
def cfgBad : Config := { version := "v0", scripts := [scriptBadPattern] }

/-- Script whose timeout string does not parse as a duration. -/
def scriptBadTimeout : ScriptConfig :=
  { name := "bt", script := "true", timeout := "banana", pattern := ".*",
    credentials := [cred2, credNoPort] }

/-- Configuration containing only `scriptBadTimeout`. -/
def cfgBadTimeout : Config := { version := "v0", scripts := [scriptBadTimeout] }

/-- Model of `time.ParseDuration` on the inputs the examples use:
durations as nanosecond counts. -/
def parseDurationModel : String → Option Int := fun s =>
  if s = "10s" then some 10000000000
  else if s = "5s" then some 5000000000
  else none

/-- Fully populated credential (a finished probe of `scriptEcho` on
`cred1`). -/
def credDone : CredentialConfig :=
  { host := "host1.example.com", port := "22", user := "alice",
    keyFile := "/keys/id_rsa", scriptResult := "foo",
    scriptReturnCode := 0, scriptError := "", resultPatternMatch := 1 }

/-- Fully populated selected script. -/
def scriptDone : ScriptConfig :=
  { name := "echo_output", script := "echo foo", timeout := "5s",
    pattern := "foo", credentials := [credDone],
    parsedTimeout := 5000000000, ignored := false }

/-- Fully populated one-script configuration. -/
def cfgDone : Config := { version := "v0", scripts := [scriptDone] }

/-- Populated slot of `cred2` after a successful run with output
`hello`. -/
def cred2Done : CredentialConfig :=
  { cred2 with
    scriptResult := "hello"
    scriptReturnCode := 0
    resultPatternMatch := 1 }

/-- Expected dispatch result for `cfgTwo` under `filterLs`,
`transportSuccess "hello"` and `regexModel`: the first script is ignored
untouched, the second has its single slot populated. -/
def cfgTwoResult : Config :=
  { version := "v0",
    scripts := [{ scriptEcho with ignored := true },
                { scriptLs with credentials := [cred2Done] }] }

/-! Helper lemmas. -/

/-- The escaped output contains no newline character: `literalFormatList`
replaces every `'\n'` by `'\\'` followed by `'n'`. -/
theorem newline_not_mem_literalFormatList :
    ∀ l : List Char, '\n' ∉ literalFormatList l := by
  intro l
  induction l with
  | nil => simp [literalFormatList]
  | cons c cs ih =>
    by_cases h : c = '\n'
    · simp only [literalFormatList, if_pos h]
      intro hmem
      rcases List.mem_cons.mp hmem with hc | hmem
      · exact absurd hc (by decide)
      rcases List.mem_cons.mp hmem with hc | hmem
      · exact absurd hc (by decide)
      · exact ih hmem
    · simp only [literalFormatList, if_neg h]
      intro hmem
      rcases List.mem_cons.mp hmem with hc | hmem
      · exact h hc.symm
      · exact ih hmem

/-- String-level corollary of `newline_not_mem_literalFormatList`. -/
theorem literalFormat_no_newline (s : String) :
    '\n' ∉ (literalFormat s).data :=
  newline_not_mem_literalFormatList s.data

/-- Unfolding of `metricFold` into an explicit concatenation. -/
theorem metricFold_eq (f : CredentialConfig → String) :
    ∀ (creds : List CredentialConfig) (init : String),
      metricFold f init creds =
        init ++ strConcat (creds.map fun x => "\n" ++ f x) := by
  intro creds
  induction creds with
  | nil => intro init; simp [metricFold, strConcat]
  | cons c rest ih =>
    intro init
    show metricFold f (init ++ "\n" ++ f c) rest = _
    rw [ih]
    simp [strConcat, String.append_assoc]

/-- One step of the exposition loop appends exactly the block of the
script (or nothing when the script is ignored). -/
theorem formatScriptStep_eq (r : String) (v : ScriptConfig) :
    formatScriptStep r v =
      r ++ (if v.ignored = true then "" else specBlock v) := by
  by_cases h : v.ignored = true
  · simp [formatScriptStep, h]
  · simp only [formatScriptStep, h, if_neg, ne_eq, not_false_eq_true,
      if_true, if_false]
    rw [metricFold_eq, metricFold_eq]
    simp [specBlock, String.append_assoc]

/-- Unfolding of the exposition foldl into a concatenation of blocks. -/
theorem formatFold_eq :
    ∀ (l : List ScriptConfig) (init : String),
      l.foldl formatScriptStep init =
        init ++
          strConcat (l.map fun v => if v.ignored = true then "" else specBlock v) := by
  intro l
  induction l with
  | nil => intro init; simp [strConcat]
  | cons v rest ih =>
    intro init
    show List.foldl formatScriptStep (formatScriptStep init v) rest = _
    rw [ih, formatScriptStep_eq]
    simp [strConcat, String.append_assoc]

/-- The exposition document is the concatenation, in configuration order,
of one `specBlock` per non-ignored script. -/
theorem formatResponse_spec (c : Config) :
    (PrometheusFormatResponse c).1 =
      strConcat (c.scripts.map fun v =>
        if v.ignored = true then "" else specBlock v) := by
  show c.scripts.foldl formatScriptStep "" = _
  rw [formatFold_eq]
  exact String.empty_append _

/-- Deleting a list entry whose image under `f` is empty does not change
the concatenation of the images. -/
theorem strConcat_map_eraseIdx {α : Type} (f : α → String) :
    ∀ (l : List α) (i : Nat) (hi : i < l.length),
      f (l.get ⟨i, hi⟩) = "" →
      strConcat (l.map f) = strConcat ((l.eraseIdx i).map f) := by
  intro l
  induction l with
  | nil => intro i hi; simp at hi
  | cons a rest ih =>
    intro i hi hf
    match i with
    | 0 =>
      simp only [List.get] at hf
      simp [strConcat, hf, String.empty_append]
    | j + 1 =>
      simp only [List.get] at hf
      have := ih j (by simpa using hi) hf
      simp [strConcat, List.eraseIdx, this]

/-- The instrumented credential loop computes the same slots as the plain
loop, and every recorded contact carries the script index `i`. -/
theorem credsLoopTraced_ok (T : Transport) (script : String)
    (m : Option (String → Bool)) (i : Nat) :
    ∀ (cs : List CredentialConfig) cs2 tr,
      credsLoopTraced T script m i cs = .ok (cs2, tr) →
      credsLoop T script m cs = .ok cs2 ∧ ∀ x ∈ tr, x.1 = i := by
  intro cs
  induction cs with
  | nil =>
    intro cs2 tr h
    simp only [credsLoopTraced] at h
    cases h
    exact ⟨rfl, by simp⟩
  | cons c rest ih =>
    intro cs2 tr h
    simp only [credsLoopTraced] at h
    cases hr : runCredential T script m c with
    | error fault => rw [hr] at h; cases h
    | ok c2 =>
      rw [hr] at h
      cases hrec : credsLoopTraced T script m i rest with
      | error fault => rw [hrec] at h; cases h
      | ok pr =>
        obtain ⟨rest2, tr2⟩ := pr
        rw [hrec] at h
        cases h
        obtain ⟨ha, hb⟩ := ih rest2 tr2 hrec
        refine ⟨by simp [credsLoop, hr, ha], ?_⟩
        intro x hx
        rcases List.mem_cons.mp hx with hx | hx
        · rw [hx]
        · exact hb x hx

/-- The instrumented per-script step agrees with `runScript`, and records
contacts only for a script whose name matches the filter, all carrying
index `i`. -/
theorem runScriptTraced_ok (T : Transport) (R : RegexEngine)
    (p : String → Bool) (i : Nat) (v : ScriptConfig)
    (v2 : ScriptConfig) (tr : List (Nat × String))
    (h : runScriptTraced T R p i v = .ok (v2, tr)) :
    runScript T R p v = .ok v2 ∧
      ∀ x ∈ tr, x.1 = i ∧ p v.name = true := by
  by_cases hp : p v.name ≠ true
  · unfold runScriptTraced at h
    rw [if_pos hp] at h
    cases h
    refine ⟨?_, by simp⟩
    unfold runScript
    rw [if_pos hp]
  · unfold runScriptTraced at h
    rw [if_neg hp] at h
    have hptrue : p v.name = true := by
      by_contra hfalse
      exact hp hfalse
    cases hr : executeScriptTraced T R i v.script v.pattern v.credentials with
    | error fault => rw [hr] at h; cases h
    | ok pr =>
      obtain ⟨creds2, tr2⟩ := pr
      rw [hr] at h
      obtain ⟨ha, hb⟩ := credsLoopTraced_ok T v.script (R v.pattern) i
        v.credentials creds2 tr2 hr
      cases h
      refine ⟨?_, fun x hx => ⟨hb x hx, hptrue⟩⟩
      unfold runScript
      rw [if_neg hp]
      have ha2 : executeScript T R v.script v.pattern v.credentials =
          Except.ok creds2 := ha
      rw [ha2]

/-- The instrumented script loop agrees with `scriptsLoop`, and every
recorded contact comes from a matched script at its own index. -/
theorem scriptsLoopTraced_ok (T : Transport) (R : RegexEngine)
    (p : String → Bool) :
    ∀ (l : List ScriptConfig) (i : Nat) l2 tr,
      scriptsLoopTraced T R p i l = .ok (l2, tr) →
      scriptsLoop T R p l = .ok l2 ∧
        ∀ x ∈ tr, ∃ j, ∃ hj : j < l.length,
          x.1 = i + j ∧ p ((l.get ⟨j, hj⟩).name) = true := by
  intro l
  induction l with
  | nil =>
    intro i l2 tr h
    simp only [scriptsLoopTraced] at h
    cases h
    exact ⟨rfl, by simp⟩
  | cons v rest ih =>
    intro i l2 tr h
    simp only [scriptsLoopTraced] at h
    cases hr : runScriptTraced T R p i v with
    | error fault => rw [hr] at h; cases h
    | ok pr =>
      obtain ⟨v2, tr1⟩ := pr
      rw [hr] at h
      cases hrec : scriptsLoopTraced T R p (i + 1) rest with
      | error fault => rw [hrec] at h; cases h
      | ok pr2 =>
        obtain ⟨rest2, trs⟩ := pr2
        rw [hrec] at h
        cases h
        obtain ⟨ha, hb⟩ := runScriptTraced_ok T R p i v v2 tr1 hr
        obtain ⟨hc, hd⟩ := ih (i + 1) rest2 trs hrec
        refine ⟨by simp [scriptsLoop, ha, hc], ?_⟩
        intro x hx
        rcases List.mem_append.mp hx with hx | hx
        · obtain ⟨he, hf⟩ := hb x hx
          exact ⟨0, by simp, by simpa using he, by simpa using hf⟩
        · obtain ⟨j, hj, he, hf⟩ := hd x hx
          refine ⟨j + 1, by simpa using hj, ?_, by simpa using hf⟩
          omega

/-- `scriptsLoop` preserves the number of scripts. -/
theorem scriptsLoop_ok_length (T : Transport) (R : RegexEngine)
    (p : String → Bool) :
    ∀ (l : List ScriptConfig) l2,
      scriptsLoop T R p l = .ok l2 → l2.length = l.length := by
  intro l
  induction l with
  | nil => intro l2 h; simp only [scriptsLoop] at h; cases h; rfl
  | cons v rest ih =>
    intro l2 h
    simp only [scriptsLoop] at h
    cases hr : runScript T R p v with
    | error fault => rw [hr] at h; cases h
    | ok v2 =>
      rw [hr] at h
      cases hrec : scriptsLoop T R p rest with
      | error fault => rw [hrec] at h; cases h
      | ok rest2 =>
        rw [hrec] at h
        cases h
        simp [ih rest2 hrec]

/-- Elementwise characterisation of a successful `scriptsLoop` run. -/
theorem scriptsLoop_ok_get (T : Transport) (R : RegexEngine)
    (p : String → Bool) :
    ∀ (l : List ScriptConfig) l2,
      scriptsLoop T R p l = .ok l2 →
      ∀ (j : Nat) (hj : j < l.length) (hj2 : j < l2.length),
        runScript T R p (l.get ⟨j, hj⟩) = .ok (l2.get ⟨j, hj2⟩) := by
  intro l
  induction l with
  | nil => intro l2 h j hj; simp at hj
  | cons v rest ih =>
    intro l2 h j hj hj2
    simp only [scriptsLoop] at h
    cases hr : runScript T R p v with
    | error fault => rw [hr] at h; cases h
    | ok v2 =>
      rw [hr] at h
      cases hrec : scriptsLoop T R p rest with
      | error fault => rw [hrec] at h; cases h
      | ok rest2 =>
        rw [hrec] at h
        cases h
        match j with
        | 0 => simpa using hr
        | k + 1 => exact ih rest2 hrec k (by simpa using hj) (by simpa using hj2)

/-- If some script makes `runScript` crash, the whole loop crashes. -/
theorem scriptsLoop_error_of (T : Transport) (R : RegexEngine)
    (p : String → Bool) :
    ∀ (l : List ScriptConfig) (j : Nat) (hj : j < l.length),
      runScript T R p (l.get ⟨j, hj⟩) = .error .nilMatcher →
      scriptsLoop T R p l = .error .nilMatcher := by
  intro l
  induction l with
  | nil => intro j hj; simp at hj
  | cons v rest ih =>
    intro j hj h
    match j with
    | 0 =>
      simp only [List.get] at h
      simp [scriptsLoop, h]
    | k + 1 =>
      simp only [List.get] at h
      have hrec := ih k (by simpa using hj) h
      cases hr : runScript T R p v with
      | error fault => cases fault; simp [scriptsLoop, hr]
      | ok v2 => simp [scriptsLoop, hr, hrec]

/-- A selected script whose pattern does not compile and which has at
least one credential crashes `runScript` with the nil-matcher panic. -/
theorem runScript_invalid_pattern (T : Transport) (R : RegexEngine)
    (p : String → Bool) (v : ScriptConfig)
    (hsel : p v.name = true) (hcomp : R v.pattern = none)
    (hcred : v.credentials ≠ []) :
    runScript T R p v = .error .nilMatcher := by
  have hp : ¬ p v.name ≠ true := by simp [hsel]
  cases hcs : v.credentials with
  | nil => exact absurd hcs hcred
  | cons c rest =>
    simp [runScript, hsel, executeScript, hcomp, hcs, credsLoop,
      runCredential, matchStringOrCrash]

/-! Claim theorems. -/

/-- Claim C2, amended: for every host on which the remote-shell connection
step fails, the recorded result has `exitStatus = -1`, `output = ""`,
`errorText` set to the failure detail, and `matched` equal to the result
of testing the script's compiled pattern against the empty output — false
for every pattern that does not match the empty string, true for patterns
(such as `.*`) that do. -/
theorem claim2_connection_failure (T : Transport) (script e : String)
    (f : String → Bool) (c : CredentialConfig)
    (hconn : T c.host c.port c.user c.keyFile script = .connFail e) :
    executeScriptOnHost T c.host c.port c.user c.keyFile script =
      ("", -1, some e) ∧
    runCredential T script (some f) c =
      .ok { c with
            scriptResult := ""
            scriptReturnCode := -1
            scriptError := e
            resultPatternMatch := if f "" then 1 else 0 } := by
  have h1 : executeScriptOnHost T c.host c.port c.user c.keyFile script =
      ("", -1, some e) := by
    unfold executeScriptOnHost
    rw [hconn]
  refine ⟨h1, ?_⟩
  simp only [runCredential, h1, matchStringOrCrash]

/-- Claim C2 counterexample: with the configured pattern `.*` (whose
compiled matcher `matchAnything` matches the empty string) a connection
failure records `matched = 1`, not the `matched = false` the claim
asserts for every configured pattern. -/
theorem claim2_counterexample :
    runCredential transportConnRefused "uptime" (some matchAnything) cred1 =
      .ok { cred1 with
            scriptResult := ""
            scriptReturnCode := -1
            scriptError := connRefusedMsg
            resultPatternMatch := 1 } ∧
    (1 : Int) ≠ 0 :=
  ⟨by rfl, by decide⟩

/-- Claim C2 witness: concrete connection failure under the pattern `foo`
(which does not match the empty string) records `exitStatus = -1`,
empty output, the failure detail, and `matched = 0`. -/
theorem claim2_witness :
    transportConnRefused cred1.host cred1.port cred1.user cred1.keyFile
        "uptime" = .connFail connRefusedMsg ∧
    executeScriptOnHost transportConnRefused cred1.host cred1.port
        cred1.user cred1.keyFile "uptime" = ("", -1, some connRefusedMsg) ∧
    runCredential transportConnRefused "uptime" (some matchFoo) cred1 =
      .ok { cred1 with
            scriptResult := ""
            scriptReturnCode := -1
            scriptError := connRefusedMsg
            resultPatternMatch := 0 } := by
  have h := claim2_connection_failure transportConnRefused "uptime"
    connRefusedMsg matchFoo cred1 rfl
  refine ⟨rfl, h.1, ?_⟩
  rw [h.2]
  rfl

/-- Claim C4: for every host on which the remote command succeeds, the
recorded output is the combined output with every newline escaped to the
two-character sequence backslash-n (hence contains no newline),
`exitStatus` is `0`, and `matched = 1` exactly when the compiled pattern
matches the escaped output. -/
theorem claim4_success_recording (T : Transport) (script out : String)
    (f : String → Bool) (c : CredentialConfig)
    (hrun : T c.host c.port c.user c.keyFile script = .success out) :
    executeScriptOnHost T c.host c.port c.user c.keyFile script =
      (literalFormat out, 0, none) ∧
    runCredential T script (some f) c =
      .ok { c with
            scriptResult := literalFormat out
            scriptReturnCode := 0
            resultPatternMatch := if f (literalFormat out) then 1 else 0 } ∧
    '\n' ∉ (literalFormat out).data ∧
    ((if f (literalFormat out) then (1 : Int) else 0) = 1 ↔
      f (literalFormat out) = true) := by
  have h1 : executeScriptOnHost T c.host c.port c.user c.keyFile script =
      (literalFormat out, 0, none) := by
    unfold executeScriptOnHost
    rw [hrun]
  refine ⟨h1, ?_, literalFormat_no_newline out, ?_⟩
  · simp only [runCredential, h1, matchStringOrCrash]
  · by_cases hf : f (literalFormat out) = true <;> simp [hf]

/-- Claim C4 witness: output `a foo\nb` under the pattern `foo` records
the escaped single-line output with `exitStatus = 0` and `matched = 1`. -/
theorem claim4_witness :
    regexModel "foo" = some matchFoo ∧
    transportSuccess "a foo\nb" cred1.host cred1.port cred1.user
        cred1.keyFile "cat log" = .success "a foo\nb" ∧
    runCredential (transportSuccess "a foo\nb") "cat log" (some matchFoo)
        cred1 =
      .ok { cred1 with
            scriptResult := "a foo\\nb"
            scriptReturnCode := 0
            resultPatternMatch := 1 } ∧
    '\n' ∉ ("a foo\\nb" : String).data := by
  have h := claim4_success_recording (transportSuccess "a foo\nb")
    "cat log" "a foo\nb" matchFoo cred1 rfl
  refine ⟨rfl, rfl, ?_, ?_⟩
  · rw [h.2.1]
    rfl
  · exact h.2.2.1

/-- Claim C5: for every host on which the remote command fails, the
recorded output is empty and the recorded exit status is the numeric code
scanned from the error detail by the textual parse, or `-1` when no
non-zero code can be scanned. -/
theorem claim5_nonzero_exit (T : Transport) (script e : String)
    (c : CredentialConfig)
    (hrun : T c.host c.port c.user c.keyFile script = .runFail e) :
    executeScriptOnHost T c.host c.port c.user c.keyFile script =
      ("", if parseExitStatus e = 0 then -1 else parseExitStatus e,
        some e) ∧
    ∀ f : String → Bool,
      runCredential T script (some f) c =
        .ok { c with
              scriptResult := ""
              scriptReturnCode :=
                if parseExitStatus e = 0 then -1 else parseExitStatus e
              scriptError := e
              resultPatternMatch := if f "" then 1 else 0 } := by
  have h1 : executeScriptOnHost T c.host c.port c.user c.keyFile script =
      ("", if parseExitStatus e = 0 then -1 else parseExitStatus e,
        some e) := by
    unfold executeScriptOnHost
    rw [hrun]
    by_cases h : parseExitStatus e = 0 <;> simp [h]
  refine ⟨h1, fun f => ?_⟩
  simp only [runCredential, h1, matchStringOrCrash]

/-- Claim C5 witness: the error detail `Process exited with status 127`
records exit status `127`; the detail `Process exited with signal KILL`
carries no scannable status and records `-1`; output is empty in both. -/
theorem claim5_witness :
    parseExitStatus "Process exited with status 127" = 127 ∧
    parseExitStatus "Process exited with signal KILL" = 0 ∧
    executeScriptOnHost (transportRunFail "Process exited with status 127")
        cred1.host cred1.port cred1.user cred1.keyFile "false" =
      ("", 127, some "Process exited with status 127") ∧
    executeScriptOnHost (transportRunFail "Process exited with signal KILL")
        cred1.host cred1.port cred1.user cred1.keyFile "false" =
      ("", -1, some "Process exited with signal KILL") ∧
    runCredential (transportRunFail "Process exited with status 127")
        "false" (some matchFoo) cred1 =
      .ok { cred1 with
            scriptResult := ""
            scriptReturnCode := 127
            scriptError := "Process exited with status 127"
            resultPatternMatch := 0 } := by
  have ha := claim5_nonzero_exit
    (transportRunFail "Process exited with status 127") "false"
    "Process exited with status 127" cred1 rfl
  have hb := claim5_nonzero_exit
    (transportRunFail "Process exited with signal KILL") "false"
    "Process exited with signal KILL" cred1 rfl
  refine ⟨by decide, by decide, ?_, ?_, ?_⟩
  · rw [ha.1]
    rfl
  · rw [hb.1]
    rfl
  · rw [ha.2 matchFoo]
    rfl

/-- Claim C6: refuted — in the synchronization model of `BatchExecute`
(one selected script, one credential) there is a reachable execution in
which the dispatcher has returned while the spawned `executeScript`
goroutine has not even reached `done.Add(1)` (so the barrier was *not*
sized to the launched tasks when `done.Wait()` passed: the counter was
still `0`) and the credential's result slot is unwritten, i.e. an
execution's result is missing from the configuration handed to the
formatter. -/
theorem claim6_missing_result_reachable :
    ∃ s : BatchSyncState,
      Relation.ReflTransGen BatchSyncStep batchSyncInit s ∧
      s.mainLoc = .returned ∧ s.execLoc = .beforeAdd ∧
      s.wgCounter = 0 ∧ s.slotWritten = false := by
  refine ⟨{ mainLoc := .returned, execLoc := .beforeAdd,
            hostLoc := .notSpawned, wgCounter := 0, slotWritten := false },
    ?_, rfl, rfl, rfl, rfl⟩
  apply Relation.ReflTransGen.head (BatchSyncStep.spawnExec batchSyncInit rfl rfl)
  apply Relation.ReflTransGen.head (BatchSyncStep.waitPass _ rfl rfl)
  apply Relation.ReflTransGen.head (BatchSyncStep.timeoutFire _ rfl)
  exact Relation.ReflTransGen.refl

/-- Claim C7, amended: the formatter emits, per selected script in
configuration order, the exit-status documentation header, one
exit-status metric line per host in configuration order, the
pattern-match documentation header, one pattern-match metric line per
host in configuration order, with consecutive lines separated by single
newlines and the script's block terminated by a single newline (not by a
blank line); ignored scripts contribute nothing. -/
theorem claim7_exposition_layout (c : Config) :
    (PrometheusFormatResponse c).1 =
      strConcat (c.scripts.map fun v =>
        if v.ignored = true then "" else specBlock v) :=
  formatResponse_spec c

set_option maxRecDepth 4000 in
/-- Claim C7 counterexample: for the fully populated one-script
configuration `cfgDone` the formatter emits exactly `specBlock scriptDone`
(block terminated by a single newline); a blank line terminating the
block, as the claim states, would require the document to be
`specBlock scriptDone ++ "\n"`, which the formatter does not produce. -/
theorem claim7_counterexample :
    (PrometheusFormatResponse cfgDone).1 = specBlock scriptDone ∧
    (PrometheusFormatResponse cfgDone).1 ≠ specBlock scriptDone ++ "\n" :=
  ⟨by rfl, by decide⟩

/-- Claim C8: an unparsable `timeout` string does not abort configuration
normalization — `adjustConfig` still returns (with a `nil` error) and the
script's `parsedTimeout` is the fixed default `10s`
(10000000000 nanoseconds, the value of `time.ParseDuration "10s"`). -/
theorem claim8_timeout_fallback (pd : String → Option Int) (c : Config)
    (i : Nat) (hi : i < c.scripts.length)
    (hi2 : i < (adjustConfig pd c).1.scripts.length)
    (hbad : pd (c.scripts[i].timeout) = none)
    (h10 : pd "10s" = some 10000000000) :
    (adjustConfig pd c).1.scripts[i].parsedTimeout = 10000000000 ∧
    (adjustConfig pd c).2 = none := by
  refine ⟨?_, rfl⟩
  show (c.scripts.map (adjustScript pd))[i].parsedTimeout = 10000000000
  rw [List.getElem_map]
  simp [adjustScript, hbad, h10]

/-- Claim C8 witness: normalizing `cfgBadTimeout` (timeout `banana`) under
the concrete duration parser yields the 10-second default. -/
theorem claim8_witness :
    parseDurationModel "banana" = none ∧
    parseDurationModel "10s" = some 10000000000 ∧
    (adjustConfig parseDurationModel cfgBadTimeout).1.scripts[0].parsedTimeout
      = 10000000000 ∧
    (adjustConfig parseDurationModel cfgBadTimeout).2 = none := by
  have h := claim8_timeout_fallback parseDurationModel cfgBadTimeout 0
    (by decide) (by decide) (by rfl) (by rfl)
  exact ⟨rfl, rfl, h.1, h.2⟩

/-- Claim C9: `adjustConfig` normalizes an absent (empty) credential port
to `"22"` and keeps a non-empty configured port unchanged. -/
theorem claim9_port_default (pd : String → Option Int) (c : Config)
    (i j : Nat) (hi : i < c.scripts.length)
    (hi2 : i < (adjustConfig pd c).1.scripts.length)
    (hj : j < c.scripts[i].credentials.length)
    (hj2 : j < (adjustConfig pd c).1.scripts[i].credentials.length) :
    (adjustConfig pd c).1.scripts[i].credentials[j].port =
      (if c.scripts[i].credentials[j].port = "" then "22"
       else c.scripts[i].credentials[j].port) := by
  have hcreds : (adjustConfig pd c).1.scripts[i].credentials =
      c.scripts[i].credentials.map defaultPort := by
    show (c.scripts.map (adjustScript pd))[i].credentials = _
    rw [List.getElem_map]
    unfold adjustScript
    cases hpd : pd ((c.scripts[i]).timeout) <;> simp [hpd]
  have hj3 : j < (c.scripts[i].credentials.map defaultPort).length := by
    simpa using hj
  calc (adjustConfig pd c).1.scripts[i].credentials[j].port
      = (c.scripts[i].credentials.map defaultPort)[j].port := by
        congr 1
        exact (List.getElem_of_eq hcreds hj2).trans (by rfl)
    _ = (defaultPort (c.scripts[i].credentials[j])).port := by
        rw [List.getElem_map]
    _ = _ := by
        unfold defaultPort
        by_cases hp : c.scripts[i].credentials[j].port = "" <;> simp [hp]

/-- Claim C9 witness: in `cfgBadTimeout`, the credential with port
`"2222"` keeps it and the credential with an empty port gets `"22"`. -/
theorem claim9_witness :
    cfgBadTimeout.scripts[0].credentials[0].port = "2222" ∧
    cfgBadTimeout.scripts[0].credentials[1].port = "" ∧
    (adjustConfig parseDurationModel cfgBadTimeout).1.scripts[0].credentials[0].port
      = "2222" ∧
    (adjustConfig parseDurationModel cfgBadTimeout).1.scripts[0].credentials[1].port
      = "22" := by
  have h0 := claim9_port_default parseDurationModel cfgBadTimeout 0 0
    (by decide) (by decide) (by decide) (by decide)
  have h1 := claim9_port_default parseDurationModel cfgBadTimeout 0 1
    (by decide) (by decide) (by decide) (by decide)
  refine ⟨by decide, by decide, ?_, ?_⟩
  · rw [h0]
    decide
  · rw [h1]
    decide

/-- Claim C10: the declared error components of `BatchExecute` and
`PrometheusFormatResponse` are constantly `nil`: whenever `BatchExecute`
returns (does not crash on the nil-matcher panic) its error component is
`none`, and `PrometheusFormatResponse` always returns a `none` error. -/
theorem claim10_nil_error_components (T : Transport) (R : RegexEngine)
    (c : Config) (p : String → Bool) :
    (BatchExecute T R c p = .error .nilMatcher ∨
      ∃ c2 : Config, BatchExecute T R c p = .ok (c2, none)) ∧
    ∃ s : String, PrometheusFormatResponse c = (s, none) := by
  constructor
  · cases h : scriptsLoop T R p c.scripts with
    | error fault =>
      cases fault
      exact Or.inl (by unfold BatchExecute; rw [h])
    | ok scripts2 =>
      exact Or.inr ⟨{ c with scripts := scripts2 },
        by unfold BatchExecute; rw [h]⟩
  · exact ⟨c.scripts.foldl formatScriptStep "", rfl⟩

/-- Claim C1: a script whose name does not match the compiled name filter
is marked ignored by the batch dispatcher, no host contact is recorded for
it (the per-host executor is never launched for any of its hosts), and it
contributes nothing to the rendered exposition document (rendering the
result equals rendering the result with that script deleted). -/
theorem claim1_unselected_scripts (T : Transport) (R : RegexEngine)
    (c : Config) (p : String → Bool) (i : Nat)
    (hi : i < c.scripts.length)
    (hname : p (c.scripts[i].name) = false)
    (c2 : Config) (tr : List (Nat × String))
    (hok : BatchExecuteTraced T R c p = .ok (c2, tr))
    (hi2 : i < c2.scripts.length) :
    BatchExecute T R c p = .ok (c2, none) ∧
    c2.scripts[i] = { c.scripts[i] with ignored := true } ∧
    (∀ x ∈ tr, x.1 ≠ i) ∧
    (PrometheusFormatResponse c2).1 =
      (PrometheusFormatResponse
        { c2 with scripts := c2.scripts.eraseIdx i }).1 := by
  unfold BatchExecuteTraced at hok
  cases hst : scriptsLoopTraced T R p 0 c.scripts with
  | error fault => rw [hst] at hok; cases hok
  | ok pr =>
    obtain ⟨l2, tr2⟩ := pr
    rw [hst] at hok
    obtain ⟨hplain, htr⟩ := scriptsLoopTraced_ok T R p c.scripts 0 l2 tr2 hst
    cases hok
    have hi2l : i < l2.length := hi2
    have hget := scriptsLoop_ok_get T R p c.scripts l2 hplain i hi hi2l
    have hrs : runScript T R p (c.scripts.get ⟨i, hi⟩) =
        .ok { c.scripts.get ⟨i, hi⟩ with ignored := true } := by
      unfold runScript
      rw [if_pos (by simp [List.get_eq_getElem, hname])]
    rw [hrs] at hget
    injection hget with hinj
    have hslot : l2.get ⟨i, hi2l⟩ =
        { c.scripts.get ⟨i, hi⟩ with ignored := true } := hinj.symm
    have hslot2 : ({ version := c.version, scripts := l2 } :
        Config).scripts[i] = { c.scripts[i] with ignored := true } := by
      show l2[i] = _
      rw [← List.get_eq_getElem l2 ⟨i, hi2l⟩, hslot]
      simp [List.get_eq_getElem]
    refine ⟨by unfold BatchExecute; rw [hplain], hslot2, ?_, ?_⟩
    · intro x hx hxi
      obtain ⟨j, hj, hxe, hmatch⟩ := htr x hx
      have hji : j = i := by omega
      subst hji
      rw [List.get_eq_getElem] at hmatch
      rw [hmatch] at hname
      cases hname
    · rw [formatResponse_spec, formatResponse_spec]
      exact strConcat_map_eraseIdx _ l2 i hi2l
        (by rw [hslot]; simp)

/-- Claim C1 witness: with the filter matching only `ls_tmp`, the script
`echo_output` (index `0`) of `cfgTwo` is marked ignored, the single
recorded contact belongs to script index `1`, and deleting the ignored
script leaves the rendered document unchanged. -/
theorem claim1_witness :
    filterLs (cfgTwo.scripts[0].name) = false ∧
    BatchExecuteTraced (transportSuccess "hello") regexModel cfgTwo filterLs
      = .ok (cfgTwoResult, [(1, "host2.example.com")]) ∧
    BatchExecute (transportSuccess "hello") regexModel cfgTwo filterLs
      = .ok (cfgTwoResult, none) ∧
    cfgTwoResult.scripts[0] = { cfgTwo.scripts[0] with ignored := true } ∧
    ((1 : Nat), "host2.example.com").1 ≠ 0 ∧
    (PrometheusFormatResponse cfgTwoResult).1 =
      (PrometheusFormatResponse
        { cfgTwoResult with
          scripts := cfgTwoResult.scripts.eraseIdx 0 }).1 := by
  have h := claim1_unselected_scripts (transportSuccess "hello") regexModel
    cfgTwo filterLs 0 (by decide) rfl cfgTwoResult
    [(1, "host2.example.com")] (by rfl) (by decide)
  exact ⟨rfl, by rfl, h.1, h.2.1,
    h.2.2.1 (1, "host2.example.com") (by simp), h.2.2.2⟩

/-- Claim C3: refuted — a selected script whose match pattern fails to
compile crashes the whole batch instead of being handled as a recoverable
error: `regexp.Compile`'s error is discarded and the nil matcher is
dereferenced in the per-host goroutine, so `BatchExecute` never returns
and no host of the batch records any result. -/
theorem claim3_invalid_pattern_crashes (T : Transport) (R : RegexEngine)
    (c : Config) (p : String → Bool) (i : Nat)
    (hi : i < c.scripts.length)
    (hsel : p (c.scripts[i].name) = true)
    (hcomp : R (c.scripts[i].pattern) = none)
    (hcred : c.scripts[i].credentials ≠ []) :
    BatchExecute T R c p = .error .nilMatcher := by
  have hrs := runScript_invalid_pattern T R p (c.scripts.get ⟨i, hi⟩)
    (by simpa [List.get_eq_getElem] using hsel)
    (by simpa [List.get_eq_getElem] using hcomp)
    (by simpa [List.get_eq_getElem] using hcred)
  have hloop := scriptsLoop_error_of T R p c.scripts i hi hrs
  unfold BatchExecute
  rw [hloop]

/-- Claim C3 witness: the batch over `cfgBad` (whose only script has the
non-compiling pattern `"("` and one credential) crashes with the
nil-matcher panic. -/
theorem claim3_witness :
    filterAll (cfgBad.scripts[0].name) = true ∧
    regexModel (cfgBad.scripts[0].pattern) = none ∧
    cfgBad.scripts[0].credentials ≠ [] ∧
    BatchExecute (transportSuccess "x") regexModel cfgBad filterAll =
      .error .nilMatcher := by
  refine ⟨rfl, rfl, by decide, ?_⟩
  exact claim3_invalid_pattern_crashes (transportSuccess "x") regexModel
    cfgBad filterAll 0 (by decide) rfl rfl (by decide)

end SshExporter
